/-
  Verification of the orchestration script `main.py` of the
  aws-iot-provisioning-demo repository.

  The script is shallowly embedded: filesystem answers, the behaviour of the
  external `ProvisioningHandler` object and of the `DeviceJobAgent` object are
  supplied by an environment record, and each run of a function is reflected
  as the list of observable events (prints, collaborator calls) it performs,
  together with a final outcome (returned normally / entered the unconditional
  job loop / raised IndexError).
-/
import Mathlib

namespace IotProvisioning

/-- Python `str.endswith(suffix)`: `suffix` is a suffix of `f`. -/
def endsWith (f suffix : String) : Bool :=
  List.isSuffixOf suffix.data f.data

/-- Python `"{}/{}".format(d, f)`: join a directory and a file name with a slash. -/
def pathJoin (d f : String) : String :=
  d ++ "/" ++ f

/-- Observable events of a run of the script: prints and calls into the
external collaborators (`ProvisioningHandler`, `DeviceJobAgent`, the sensor
thread), in program order. -/
inductive Event where
  | print (s : String)
  | openBootstrap (path : String) (ok : Bool)
  | getOfficialCerts ( isRotation : Bool)
  | testRestrictedTopic (message : String) (ok : Bool)
  | startSensorThread
  | constructJobAgent (thingName endpoint certPath keyPath rootCaPath : String)
  | jobInit
  | pollReboot (result : Bool)
  | sleepOne
  | jobDisconnect
  deriving DecidableEq, Repr

/-- The `[SETTINGS]` values read from `config.ini` at module load
(`secure_cert_path`, `bootstrap_cert` = `CLAIM_CERT`, `actua_cert_path`,
`thingPrefix` embeds the source name `THING_PREFIX`). -/
structure Config where
  secure_cert_path : String
  bootstrap_cert : String
  actua_cert_path : String
  thingPrefix : String
  deriving DecidableEq, Repr

/-- The mutable attributes of the module-level `ProvisioningHandler` instance
that `main.py` reads or writes (`provisioner.<field>`). -/
structure Provisioner where
  actua_cert_path : String
  secure_cert_path : String
  root_cert : String
  iot_endpoint : String
  unique_id : String
  new_cert_name : String
  new_key_name : String
  isFirst : Bool
  deriving DecidableEq, Repr

/-- Environment: configuration, filesystem answers, and the observable
behaviour of the external collaborators during this run. -/
structure Env where
  cfg : Config
  /-- `os.path.exists(actua_cert_path)` -/
  pathExists : Bool
  /-- `os.path.isdir(actua_cert_path)` -/
  pathIsDir : Bool
  /-- `os.listdir(actua_cert_path)` (stable within the run) -/
  listing : List String
  /-- `open(secure_cert_path/bootstrap_cert)` succeeds (else raises `IOError`) -/
  bootstrapOpenable : Bool
  /-- initial state of the module-level `ProvisioningHandler` -/
  p0 : Provisioner
  /-- device id produced by a successful provisioning exchange -/
  provisionedId : String
  /-- certificate file name produced by a successful provisioning exchange -/
  provisionedCert : String
  /-- key file name produced by a successful provisioning exchange -/
  provisionedKey : String
  /-- outcome of the restricted-topic connectivity probe -/
  probeOk : Bool
  /-- contents of stored credential blobs, by path (never read by `main.py`) -/
  blob : String → String

/-- Modelled from the spec: `ProvisioningHandler.get_official_certs` is code of
this repository not present under `src/`.  Per the spec (ProvisioningProtocol,
step Complete) a successful exchange persists the new production Identity and
yields the assigned device unique id; the handler records the produced names
on itself.  The call is recorded as a `getOfficialCerts` event. -/
def get_official_certs (env : Env) (p : Provisioner) ( isRotation : Bool) :
    List Event × Provisioner :=
  ([Event.getOfficialCerts isRotation],
   { p with
      unique_id := env.provisionedId
      new_cert_name := env.provisionedCert
      new_key_name := env.provisionedKey })

/-- Modelled from the spec: `ProvisioningHandler.test_restricted_topic` is code
of this repository not present under `src/`.  Per the spec it publishes a
message on a restricted test topic using the production identity; the call and
its outcome are recorded as a `testRestrictedTopic` event. -/
def test_restricted_topic (env : Env) (message : String) : List Event :=
  [Event.testRestrictedTopic message env.probeOk]

/-- `sensor_simulator(provisioner)` (`main.py` lines 123-126): starts the
sensor thread and prints. -/
def sensor_simulator : List Event :=
  [Event.startSensorThread, Event.print "Sensor thread Started"]

/-- `run_provisioning(isRotation)` (`main.py` lines 70-86). -/
def run_provisioning (env : Env) (p : Provisioner) ( isRotation : Bool) :
    List Event × Provisioner :=
  if isRotation then
    get_official_certs env p true
  else
    if env.bootstrapOpenable then
      let r := get_official_certs env p false
      (Event.openBootstrap (pathJoin env.cfg.secure_cert_path env.cfg.bootstrap_cert) true
         :: r.1, r.2)
    else
      ([Event.openBootstrap (pathJoin env.cfg.secure_cert_path env.cfg.bootstrap_cert) false,
        Event.print "### Bootstrap cert non-existent. Official cert may already be in place."],
       p)

/-- `[filename for filename in os.listdir(actua_cert_path) if filename.endswith('.crt')]`
(`main.py` line 105). -/
def crt_files (l : List String) : List String :=
  l.filter (fun f => endsWith f ".crt")

/-- `[filename for filename in os.listdir(actua_cert_path) if filename.endswith('.key')]`
(`main.py` line 107). -/
def key_files (l : List String) : List String :=
  l.filter (fun f => endsWith f ".key")

/-- How a run of `check_real_cert` ends: returns normally, enters the
unconditional `while True` job loop, or raises `IndexError` on `files[0]`. -/
inductive Final where
  | returned
  | enterJobLoop
  | indexError
  deriving DecidableEq, Repr

/-- Result of a run of `check_real_cert`: the events performed before the end
(or before entering the job loop), the kind of end, and the handler state. -/
structure Outcome where
  events : List Event
  final : Final
  p : Provisioner
  deriving DecidableEq, Repr

/-- `check_real_cert()` (`main.py` lines 88-121).  The unconditional
`while True` job loop (lines 97-101 and 114-118) is modelled separately by
`jobLoopTrace`; the outcome `Final.enterJobLoop` marks reaching it. -/
def check_real_cert (env : Env) : Outcome :=
  if env.pathExists && env.pathIsDir then
    if env.listing.isEmpty then
      let r := run_provisioning env env.p0 false
      let p1 := r.2
      ⟨Event.print "Actual cert Directory is empty"
         :: r.1
         ++ [Event.print "Starting sensor"]
         ++ sensor_simulator
         ++ [Event.print "Provisioning complete. Starting job agent to listen for jobs",
             Event.constructJobAgent (env.cfg.thingPrefix ++ p1.unique_id) p1.iot_endpoint
               (pathJoin p1.actua_cert_path p1.new_cert_name)
               (pathJoin p1.actua_cert_path p1.new_key_name)
               (pathJoin p1.secure_cert_path p1.root_cert)],
       Final.enterJobLoop, p1⟩
    else
      let p1 := { env.p0 with isFirst := false }
      match crt_files env.listing with
      | [] =>
        ⟨[Event.print "Directory is not empty so actual cert downloaded"],
         Final.indexError, p1⟩
      | c :: _ =>
        let p2 := { p1 with new_cert_name := c }
        match key_files env.listing with
        | [] =>
          ⟨[Event.print "Directory is not empty so actual cert downloaded"],
           Final.indexError, p2⟩
        | k :: _ =>
          let p3 := { p2 with new_key_name := k }
          ⟨Event.print "Directory is not empty so actual cert downloaded"
             :: test_restricted_topic env "test message"
             ++ [Event.print "Starting sensor"]
             ++ sensor_simulator
             ++ [Event.print "Starting job agent to listen for jobs",
                 Event.constructJobAgent (env.cfg.thingPrefix ++ p3.unique_id) p3.iot_endpoint
                   (pathJoin p3.actua_cert_path p3.new_cert_name)
                   (pathJoin p3.actua_cert_path p3.new_key_name)
                   (pathJoin p3.secure_cert_path p3.root_cert)],
           Final.enterJobLoop, p3⟩
  else
    ⟨[Event.print "Given directory doesn\x27t exist"], Final.returned, env.p0⟩

/-- One iteration of the `while True` job loop (`main.py` lines 97-101 and
114-118), with the inner `while not jobagent.isRebooting()` poll returning
`false` exactly `k` times before returning `true`:
`init`, then `k` times (`pollReboot false`, `sleep(1)`), then `pollReboot true`,
then `disconnect`. -/
def cycleEvents (k : Nat) : List Event :=
  Event.jobInit
    :: ((List.replicate k [Event.pollReboot false, Event.sleepOne]).flatten
        ++ [Event.pollReboot true, Event.jobDisconnect])

/-- The first `ks.length` iterations of the unconditional `while True` job
loop, iteration `i` polling `isRebooting` `ks[i]` times unsuccessfully before
it returns `true`. -/
def jobLoopTrace (ks : List Nat) : List Event :=
  (ks.map cycleEvents).flatten

/-- Adjacency discipline of the job loop: a `disconnect` is entered only from
a successful reboot poll, and whatever follows a `disconnect` is an `init`. -/
def jobStepOk (e₁ e₂ : Event) : Prop :=
  (e₂ = Event.jobDisconnect → e₁ = Event.pollReboot true) ∧
  (e₁ = Event.jobDisconnect → e₂ = Event.jobInit)

instance (e₁ e₂ : Event) : Decidable (jobStepOk e₁ e₂) :=
  inferInstanceAs (Decidable
    ((e₂ = Event.jobDisconnect → e₁ = Event.pollReboot true) ∧
     (e₁ = Event.jobDisconnect → e₂ = Event.jobInit)))

/-- A sample configuration for concrete runs. -/
def baseCfg : Config := ⟨"sec", "claim.pem", "act", "dev-"⟩

/-- A sample initial `ProvisioningHandler` state (same `config.ini` values). -/
def baseProv : Provisioner := ⟨"act", "sec", "root.pem", "endpoint", "", "", "", true⟩

/-- A sample environment: the production-certificate directory exists and is
empty (first boot), and the bootstrap certificate is openable. -/
def baseEnv : Env :=
  ⟨baseCfg, true, true, [], true, baseProv, "42", "new.crt", "new.key", true, fun _ => ""⟩

/-- The production-certificate directory is non-empty but holds no
certificate/key pair. -/
def envNoCrt : Env := { baseEnv with listing := ["readme.txt"] }

/-- A production identity is in place but the restricted-topic probe fails
(and all stored blobs are empty strings). -/
def envProbeFail : Env :=
  { baseEnv with listing := ["dev.crt", "dev.key"], probeOk := false }

/-- The head of a filtered list is the first element satisfying the test. -/
theorem head?_filter {α : Type} (p : α → Bool) (l : List α) :
    (l.filter p).head? = l.find? p := by
  induction l with
  | nil => rfl
  | cons a l ih =>
    cases h : p a <;>
      simp [List.filter_cons, List.find?_cons_of_pos, List.find?_cons_of_neg, h, ih]

/-- C1, corrected.  When the production-certificate directory exists, is empty
and the bootstrap certificate is openable, `check_real_cert` invokes
`get_official_certs` with `isRotation = false`; when the storage location is
absent, however, no provisioning exchange is invoked at all (the function
merely reports and returns). -/
theorem claim1_theorem (env : Env) :
    (env.pathExists = true → env.pathIsDir = true → env.listing = [] →
      env.bootstrapOpenable = true →
      Event.getOfficialCerts false ∈ (check_real_cert env).events) ∧
    (env.pathExists = false →
      ∀ r, Event.getOfficialCerts r ∉ (check_real_cert env).events) := by
  obtain ⟨cfg, pe, pid, lst, bo, p0, prid, prc, prk, prob, blob⟩ := env
  constructor
  · intro he hd hl hb
    subst he; subst hd; subst hl; subst hb
    simp [check_real_cert, run_provisioning, get_official_certs, sensor_simulator]
  · intro he r
    subst he
    simp [check_real_cert]

/-- C1: in the state where the production-certificate storage location is
absent, and in the state where it is empty but the bootstrap certificate is
unopenable, no `get_official_certs` call occurs — refuting the claim that
every state without a production Identity leads to the provisioning
exchange. -/
theorem claim1_counterexample :
    Event.getOfficialCerts false ∉ (check_real_cert { baseEnv with pathExists := false }).events ∧
    Event.getOfficialCerts true ∉ (check_real_cert { baseEnv with pathExists := false }).events ∧
    Event.getOfficialCerts false ∉ (check_real_cert { baseEnv with bootstrapOpenable := false }).events := by
  decide

/-- C1: witness. -/
theorem claim1_witness :
    Event.getOfficialCerts false ∈ (check_real_cert baseEnv).events ∧
    Event.getOfficialCerts true ∉ (check_real_cert { baseEnv with pathExists := false }).events :=
  ⟨(claim1_theorem baseEnv).1 rfl rfl rfl rfl,
   (claim1_theorem { baseEnv with pathExists := false }).2 rfl true⟩

/-- C5, confirmed.  On the non-rotation path, `run_provisioning` calls
`get_official_certs` exactly when the bootstrap certificate is openable; when
opening raises `IOError`, it performs no provisioning call, only reports the
condition, leaves the handler untouched, and returns normally. -/
theorem claim5_theorem (env : Env) (p : Provisioner) :
    (env.bootstrapOpenable = true →
      (run_provisioning env p false).1 =
        [Event.openBootstrap (pathJoin env.cfg.secure_cert_path env.cfg.bootstrap_cert) true,
         Event.getOfficialCerts false]) ∧
    (env.bootstrapOpenable = false →
      (run_provisioning env p false).1 =
        [Event.openBootstrap (pathJoin env.cfg.secure_cert_path env.cfg.bootstrap_cert) false,
         Event.print "### Bootstrap cert non-existent. Official cert may already be in place."] ∧
      (∀ r, Event.getOfficialCerts r ∉ (run_provisioning env p false).1) ∧
      (run_provisioning env p false).2 = p) := by
  constructor
  · intro hb
    simp [run_provisioning, hb, get_official_certs]
  · intro hb
    refine ⟨?_, ?_, ?_⟩ <;> simp [run_provisioning, hb, get_official_certs]

/-- C5: witness. -/
theorem claim5_witness :
    (run_provisioning baseEnv baseProv false).1 =
      [Event.openBootstrap (pathJoin "sec" "claim.pem") true,
       Event.getOfficialCerts false] ∧
    (run_provisioning { baseEnv with bootstrapOpenable := false } baseProv false).1 =
      [Event.openBootstrap (pathJoin "sec" "claim.pem") false,
       Event.print "### Bootstrap cert non-existent. Official cert may already be in place."] :=
  ⟨(claim5_theorem baseEnv baseProv).1 rfl,
   ((claim5_theorem { baseEnv with bootstrapOpenable := false } baseProv).2 rfl).1⟩

/-- C7, confirmed.  Identity discovery selects the first `.crt` entry and the
first `.key` entry of the listing, in listing order; the selection is a
deterministic function of the listing sequence, yet two listings of the same
file set in different orders can select different names, and the certificate
and key are selected independently rather than as a matched pair. -/
theorem claim7_theorem :
    (∀ l : List String, (crt_files l).head? = l.find? (fun f => endsWith f ".crt")) ∧
    (∀ l : List String, (key_files l).head? = l.find? (fun f => endsWith f ".key")) ∧
    (∀ l₁ l₂ : List String, l₁ = l₂ →
      (crt_files l₁).head? = (crt_files l₂).head? ∧
      (key_files l₁).head? = (key_files l₂).head?) ∧
    (List.Perm ["a.crt", "b.crt", "k.key"] ["b.crt", "a.crt", "k.key"] ∧
      (crt_files ["a.crt", "b.crt", "k.key"]).head? = some "a.crt" ∧
      (crt_files ["b.crt", "a.crt", "k.key"]).head? = some "b.crt") ∧
    ((crt_files ["b.key", "a.crt", "a.key"]).head? = some "a.crt" ∧
      (key_files ["b.key", "a.crt", "a.key"]).head? = some "b.key") := by
  refine ⟨fun l => head?_filter _ l, fun l => head?_filter _ l, ?_, ?_, ?_⟩
  · intro l₁ l₂ h
    subst h
    exact ⟨rfl, rfl⟩
  · exact ⟨by decide, by decide, by decide⟩
  · exact ⟨by decide, by decide⟩

/-- C2, confirmed.  On first boot (directory exists and is empty, bootstrap
certificate openable), the provisioning call (event index 2) precedes the
construction of the job agent (event index 7), and every job agent constructed
on this path is given the production identity produced by provisioning:
thing name `thingPrefix ++ unique_id`, certificate and key under
`actua_cert_path`, root CA under `secure_cert_path`. -/
theorem claim2_theorem (env : Env)
    (he : env.pathExists = true) (hd : env.pathIsDir = true)
    (hl : env.listing = []) (hb : env.bootstrapOpenable = true) :
    (check_real_cert env).events[2]? = some (Event.getOfficialCerts false) ∧
    (check_real_cert env).events[7]? = some (Event.constructJobAgent
        (env.cfg.thingPrefix ++ env.provisionedId) env.p0.iot_endpoint
        (pathJoin env.p0.actua_cert_path env.provisionedCert)
        (pathJoin env.p0.actua_cert_path env.provisionedKey)
        (pathJoin env.p0.secure_cert_path env.p0.root_cert)) ∧
    (∀ t ep c k ca,
      Event.constructJobAgent t ep c k ca ∈ (check_real_cert env).events →
      t = env.cfg.thingPrefix ++ env.provisionedId ∧
      c = pathJoin env.p0.actua_cert_path env.provisionedCert ∧
      k = pathJoin env.p0.actua_cert_path env.provisionedKey) := by
  obtain ⟨cfg, pe, pid, lst, bo, p0, prid, prc, prk, prob, blob⟩ := env
  subst he; subst hd; subst hl; subst hb
  refine ⟨rfl, rfl, ?_⟩
  intro t ep c k ca h
  simp [check_real_cert, run_provisioning, get_official_certs, sensor_simulator] at h
  obtain ⟨ht, hep, hc, hk, hca⟩ := h
  exact ⟨ht, hc, hk⟩

/-- C2: witness. -/
theorem claim2_witness :
    (check_real_cert baseEnv).events[2]? = some (Event.getOfficialCerts false) ∧
    (check_real_cert baseEnv).events[7]? = some (Event.constructJobAgent
        ("dev-" ++ "42") "endpoint" (pathJoin "act" "new.crt")
        (pathJoin "act" "new.key") (pathJoin "sec" "root.pem")) :=
  ⟨(claim2_theorem baseEnv rfl rfl rfl rfl).1,
   (claim2_theorem baseEnv rfl rfl rfl rfl).2.1⟩

/-- C3, confirmed.  When the production-certificate directory is non-empty,
`check_real_cert` performs no provisioning exchange: no `get_official_certs`
call, with either rotation flag, occurs on that path. -/
theorem claim3_theorem (env : Env)
    (he : env.pathExists = true) (hd : env.pathIsDir = true)
    (hl : env.listing ≠ []) :
    ∀ r, Event.getOfficialCerts r ∉ (check_real_cert env).events := by
  obtain ⟨cfg, pe, pid, lst, bo, p0, prid, prc, prk, prob, blob⟩ := env
  subst he; subst hd
  intro r
  rcases lst with _ | ⟨a, l⟩
  · exact absurd rfl hl
  · rcases hc : crt_files (a :: l) with _ | ⟨c, cs⟩
    · simp [check_real_cert, hc]
    · rcases hk : key_files (a :: l) with _ | ⟨k, ks⟩
      · simp [check_real_cert, hc, hk]
      · simp [check_real_cert, hc, hk, test_restricted_topic, sensor_simulator]

/-- C3: witness. -/
theorem claim3_witness :
    Event.getOfficialCerts false ∉ (check_real_cert envProbeFail).events :=
  claim3_theorem envProbeFail rfl rfl (by decide) false

/-- On the first-boot path (directory exists and is empty) `check_real_cert`
reaches the unconditional job loop. -/
theorem check_real_cert_final_empty (env : Env) (he : env.pathExists = true)
    (hd : env.pathIsDir = true) (hl : env.listing = []) :
    (check_real_cert env).final = Final.enterJobLoop := by
  obtain ⟨cfg, pe, pid, lst, bo, p0, prid, prc, prk, prob, blob⟩ := env
  subst he; subst hd; subst hl
  rfl

/-- On the already-provisioned path (directory exists, non-empty listing),
`check_real_cert` reaches the job loop exactly when the listing yields a
`.crt` entry and a `.key` entry, and otherwise raises `IndexError`. -/
theorem check_real_cert_final_nonempty (env : Env) (he : env.pathExists = true)
    (hd : env.pathIsDir = true) (a : String) (l : List String)
    (hl : env.listing = a :: l) :
    ((check_real_cert env).final = Final.enterJobLoop ↔
      (crt_files env.listing ≠ [] ∧ key_files env.listing ≠ [])) ∧
    ((check_real_cert env).final = Final.enterJobLoop ∨
      (check_real_cert env).final = Final.indexError) := by
  obtain ⟨cfg, pe, pid, lst, bo, p0, prid, prc, prk, prob, blob⟩ := env
  subst he; subst hd; subst hl
  rcases hc : crt_files (a :: l) with _ | ⟨c, cs⟩
  · constructor
    · simp [check_real_cert, hc]
    · right
      simp [check_real_cert, hc]
  · rcases hk : key_files (a :: l) with _ | ⟨k, ks⟩
    · constructor
      · simp [check_real_cert, hc, hk]
      · right
        simp [check_real_cert, hc, hk]
    · constructor
      · simp [check_real_cert, hc, hk]
      · left
        simp [check_real_cert, hc, hk]

/-- C6, corrected.  When a production Identity is present (directory non-empty
with a `.crt` and a `.key` entry), `check_real_cert` performs the
restricted-topic connectivity probe with the production identity, but it
performs no blob-integrity verification (the run never depends on the stored
blob contents) and never falls back to provisioning: no `get_official_certs`
call occurs on this path, whatever the probe outcome, and the run proceeds to
the job loop regardless. -/
theorem claim6_theorem (env : Env)
    (he : env.pathExists = true) (hd : env.pathIsDir = true)
    (hc : crt_files env.listing ≠ []) (hk : key_files env.listing ≠ []) :
    Event.testRestrictedTopic "test message" env.probeOk ∈ (check_real_cert env).events ∧
    (∀ r, Event.getOfficialCerts r ∉ (check_real_cert env).events) ∧
    (∀ b, check_real_cert { env with blob := b } = check_real_cert env) ∧
    (check_real_cert env).final = Final.enterJobLoop := by
  obtain ⟨cfg, pe, pid, lst, bo, p0, prid, prc, prk, prob, blob⟩ := env
  subst he; subst hd
  rcases lst with _ | ⟨a, l⟩
  · exact absurd rfl hc
  · rcases hcrt : crt_files (a :: l) with _ | ⟨c, cs⟩
    · exact absurd hcrt hc
    · rcases hkey : key_files (a :: l) with _ | ⟨k, ks⟩
      · exact absurd hkey hk
      · refine ⟨?_, ?_, fun b => rfl, ?_⟩
        · simp [check_real_cert, hcrt, hkey, test_restricted_topic, sensor_simulator]
        · intro r
          simp [check_real_cert, hcrt, hkey, test_restricted_topic, sensor_simulator]
        · simp [check_real_cert, hcrt, hkey]

/-- C6: with a production identity in place, empty stored blobs and a failing
probe, the run still performs no provisioning call and proceeds to the job
loop — refuting both the blob-integrity verification and the fall-back to
full provisioning on probe failure. -/
theorem claim6_counterexample :
    Event.testRestrictedTopic "test message" false ∈ (check_real_cert envProbeFail).events ∧
    Event.getOfficialCerts false ∉ (check_real_cert envProbeFail).events ∧
    Event.getOfficialCerts true ∉ (check_real_cert envProbeFail).events ∧
    (check_real_cert envProbeFail).final = Final.enterJobLoop := by
  decide

/-- C6: witness. -/
theorem claim6_witness :
    Event.testRestrictedTopic "test message" false ∈ (check_real_cert envProbeFail).events ∧
    (check_real_cert envProbeFail).final = Final.enterJobLoop :=
  ⟨(claim6_theorem envProbeFail rfl rfl (by decide) (by decide)).1,
   (claim6_theorem envProbeFail rfl rfl (by decide) (by decide)).2.2.2⟩

/-- C9, confirmed.  On the already-provisioned path with a non-empty listing,
the `files[0]` indexing is in bounds — no `IndexError` — exactly when the
listing yields at least one `.crt` entry and at least one `.key` entry. -/
theorem claim9_theorem (env : Env)
    (he : env.pathExists = true) (hd : env.pathIsDir = true)
    (hl : env.listing ≠ []) :
    ((check_real_cert env).final ≠ Final.indexError) ↔
      (crt_files env.listing ≠ [] ∧ key_files env.listing ≠ []) := by
  rcases henv : env.listing with _ | ⟨a, l⟩
  · exact absurd henv hl
  · obtain ⟨hiff, hor⟩ := check_real_cert_final_nonempty env he hd a l henv
    rw [henv] at hiff
    constructor
    · intro hne
      rcases hor with h | h
      · exact hiff.mp h
      · exact absurd h hne
    · intro hcond
      rw [hiff.mpr hcond]
      simp

/-- C9: witness. -/
theorem claim9_witness :
    ((check_real_cert envNoCrt).final ≠ Final.indexError) ↔
      (crt_files envNoCrt.listing ≠ [] ∧ key_files envNoCrt.listing ≠ []) :=
  claim9_theorem envNoCrt rfl rfl (by decide)

/-- C10, corrected.  `check_real_cert` returns normally exactly when the
directory is absent or not a directory; when the directory exists and is
empty, or is non-empty and yields both a `.crt` and a `.key` entry, execution
reaches the unconditional `while True` job loop; but a non-empty directory
lacking either entry raises `IndexError` instead of reaching the loop. -/
theorem claim10_theorem (env : Env) :
    ((check_real_cert env).final = Final.returned ↔
      ¬(env.pathExists = true ∧ env.pathIsDir = true)) ∧
    (env.pathExists = true → env.pathIsDir = true →
      (env.listing = [] → (check_real_cert env).final = Final.enterJobLoop) ∧
      (∀ a l, env.listing = a :: l →
        ((check_real_cert env).final = Final.enterJobLoop ↔
          (crt_files env.listing ≠ [] ∧ key_files env.listing ≠ [])) ∧
        ((check_real_cert env).final = Final.enterJobLoop ∨
          (check_real_cert env).final = Final.indexError))) := by
  constructor
  · cases hb : env.pathExists && env.pathIsDir with
    | false =>
      have hfin : (check_real_cert env).final = Final.returned := by
        simp [check_real_cert, hb]
      constructor
      · intro _ h
        obtain ⟨h1, h2⟩ := h
        rw [h1, h2] at hb
        simp at hb
      · intro _
        exact hfin
    | true =>
      obtain ⟨h1, h2⟩ := Bool.and_eq_true_iff.mp hb
      have hne : (check_real_cert env).final ≠ Final.returned := by
        rcases henv : env.listing with _ | ⟨a, l⟩
        · rw [check_real_cert_final_empty env h1 h2 henv]
          simp
        · rcases (check_real_cert_final_nonempty env h1 h2 a l henv).2 with h | h <;>
            rw [h] <;> simp
      constructor
      · intro h
        exact absurd h hne
      · intro h
        exact absurd ⟨h1, h2⟩ h
  · intro h1 h2
    exact ⟨fun hl => check_real_cert_final_empty env h1 h2 hl,
           fun a l hl => check_real_cert_final_nonempty env h1 h2 a l hl⟩

/-- C10: the directory exists, is non-empty, but holds no `.crt` file: the
run raises `IndexError`, refuting the claim that every existing directory
leads to the unconditional job loop. -/
theorem claim10_counterexample :
    envNoCrt.pathExists = true ∧ envNoCrt.pathIsDir = true ∧
    envNoCrt.listing ≠ [] ∧
    (check_real_cert envNoCrt).final ≠ Final.enterJobLoop ∧
    (check_real_cert envNoCrt).final = Final.indexError := by
  decide

/-- C10: witness. -/
theorem claim10_witness :
    (check_real_cert baseEnv).final = Final.enterJobLoop ∧
    ((check_real_cert envProbeFail).final = Final.enterJobLoop ∨
      (check_real_cert envProbeFail).final = Final.indexError) :=
  ⟨((claim10_theorem baseEnv).2 rfl rfl).1 rfl,
   (((claim10_theorem envProbeFail).2 rfl rfl).2 "dev.crt" ["dev.key"] rfl).2⟩

/-- C7: witness. -/
theorem claim7_witness :
    (crt_files ["x.crt"]).head? = (crt_files ["x.crt"]).head? ∧
    (key_files ["x.crt"]).head? = (key_files ["x.crt"]).head? :=
  claim7_theorem.2.2.1 ["x.crt"] ["x.crt"] rfl

/-- Splitting a character list at a slash is unambiguous when neither prefix
contains a slash. -/
theorem slashFree_append_inj (a s x y : List Char) (ha : ('/' : Char) ∉ a)
    (hs : ('/' : Char) ∉ s) (h : a ++ '/' :: x = s ++ '/' :: y) : a = s := by
  induction a generalizing s with
  | nil =>
    cases s with
    | nil => rfl
    | cons d s' =>
      rw [List.nil_append] at h
      injection h with h1 h2
      subst h1
      exact absurd (List.mem_cons_self _ _) hs
  | cons c a' ih =>
    cases s with
    | nil =>
      rw [List.nil_append] at h
      injection h with h1 h2
      subst h1
      exact absurd (List.mem_cons_self _ _) ha
    | cons d s' =>
      injection h with h1 h2
      subst h1
      rw [ih s' (fun hm => ha (List.mem_cons_of_mem _ hm))
            (fun hm => hs (List.mem_cons_of_mem _ hm)) h2]

/-- The character data of a joined path. -/
theorem pathJoin_data (d f : String) :
    (pathJoin d f).data = d.data ++ '/' :: f.data := by
  simp [pathJoin, String.data_append, List.append_assoc]

/-- Joined paths with slash-free directory parts agree on the directory. -/
theorem pathJoin_dir_inj (a s x y : String) (ha : ('/' : Char) ∉ a.data)
    (hs : ('/' : Char) ∉ s.data) (h : pathJoin a x = pathJoin s y) : a = s := by
  have hd := congrArg String.data h
  rw [pathJoin_data, pathJoin_data] at hd
  exact String.ext (slashFree_append_inj _ _ _ _ ha hs hd)

/-- C4, confirmed.  Every `DeviceJobAgent` constructed by `check_real_cert` —
on the first-boot path as well as the already-provisioned path — is given a
certificate and key located under `actua_cert_path` (the files named by the
final handler state); provided the two configured directories are slash-free
and distinct, the certificate is in particular never the bootstrap/claim
certificate `secure_cert_path/bootstrap_cert`. -/
theorem claim4_theorem (env : Env) (t ep cert key ca : String)
    (hmem : Event.constructJobAgent t ep cert key ca ∈ (check_real_cert env).events)
    (ha : ('/' : Char) ∉ env.p0.actua_cert_path.data)
    (hs : ('/' : Char) ∉ env.cfg.secure_cert_path.data)
    (hne : env.p0.actua_cert_path ≠ env.cfg.secure_cert_path) :
    cert = pathJoin env.p0.actua_cert_path (check_real_cert env).p.new_cert_name ∧
    key = pathJoin env.p0.actua_cert_path (check_real_cert env).p.new_key_name ∧
    cert ≠ pathJoin env.cfg.secure_cert_path env.cfg.bootstrap_cert := by
  have hck : cert = pathJoin env.p0.actua_cert_path (check_real_cert env).p.new_cert_name ∧
      key = pathJoin env.p0.actua_cert_path (check_real_cert env).p.new_key_name := by
    clear ha hs hne
    obtain ⟨cfg, pe, pid, lst, bo, p0, prid, prc, prk, prob, blob⟩ := env
    cases pe with
    | false => simp [check_real_cert] at hmem
    | true =>
      cases pid with
      | false => simp [check_real_cert] at hmem
      | true =>
        rcases lst with _ | ⟨a, l⟩
        · cases bo with
          | true =>
            simp [check_real_cert, run_provisioning, get_official_certs,
              sensor_simulator] at hmem ⊢
            exact ⟨hmem.2.2.1, hmem.2.2.2.1⟩
          | false =>
            simp [check_real_cert, run_provisioning, get_official_certs,
              sensor_simulator] at hmem ⊢
            exact ⟨hmem.2.2.1, hmem.2.2.2.1⟩
        · rcases hc : crt_files (a :: l) with _ | ⟨c, cs⟩
          · simp [check_real_cert, hc] at hmem
          · rcases hk : key_files (a :: l) with _ | ⟨k, ks⟩
            · simp [check_real_cert, hc, hk] at hmem
            · simp [check_real_cert, hc, hk, test_restricted_topic,
                sensor_simulator] at hmem ⊢
              exact ⟨hmem.2.2.1, hmem.2.2.2.1⟩
  refine ⟨hck.1, hck.2, ?_⟩
  intro hbad
  exact hne (pathJoin_dir_inj _ _ _ _ ha hs (hck.1.symm.trans hbad))

/-- C4: witness. -/
theorem claim4_witness :
    pathJoin "act" "new.crt" =
      pathJoin baseEnv.p0.actua_cert_path (check_real_cert baseEnv).p.new_cert_name ∧
    pathJoin "act" "new.key" =
      pathJoin baseEnv.p0.actua_cert_path (check_real_cert baseEnv).p.new_key_name ∧
    pathJoin "act" "new.crt" ≠
      pathJoin baseEnv.cfg.secure_cert_path baseEnv.cfg.bootstrap_cert :=
  claim4_theorem baseEnv ("dev-" ++ "42") "endpoint" (pathJoin "act" "new.crt")
    (pathJoin "act" "new.key") (pathJoin "sec" "root.pem")
    (by decide) (by decide) (by decide) (by decide)

/-- `jobStepOk` holds between any two events neither of which is a
`disconnect`. -/
theorem jobStepOk_of_ne (e₁ e₂ : Event) (h₁ : e₁ ≠ Event.jobDisconnect)
    (h₂ : e₂ ≠ Event.jobDisconnect) : jobStepOk e₁ e₂ :=
  ⟨fun h => absurd h h₂, fun h => absurd h h₁⟩

/-- The head of a poll/sleep block sequence followed by `t` is a failing poll,
or the sequence is empty and the head is that of `t`. -/
theorem head_blocks (k : Nat) (t : List Event) :
    ((List.replicate k [Event.pollReboot false, Event.sleepOne]).flatten ++ t).head? =
      some (Event.pollReboot false) ∨
    ((List.replicate k [Event.pollReboot false, Event.sleepOne]).flatten ++ t).head? =
      t.head? := by
  cases k with
  | zero => right; rfl
  | succ n => left; rfl

/-- The job-loop step discipline holds across any number of poll/sleep blocks
prepended to a tail that satisfies it and does not begin with a disconnect. -/
theorem chain'_blocks (k : Nat) (t : List Event) (ht : List.Chain' jobStepOk t)
    (hh : ∀ e, t.head? = some e → e ≠ Event.jobDisconnect) :
    List.Chain' jobStepOk
      ((List.replicate k [Event.pollReboot false, Event.sleepOne]).flatten ++ t) := by
  induction k with
  | zero => simpa using ht
  | succ n ih =>
    show List.Chain' jobStepOk
      (Event.pollReboot false :: Event.sleepOne ::
        ((List.replicate n [Event.pollReboot false, Event.sleepOne]).flatten ++ t))
    rw [List.chain'_cons]
    refine ⟨jobStepOk_of_ne _ _ (by simp) (by simp), ?_⟩
    refine List.chain'_cons'.mpr ⟨?_, ih⟩
    intro e he
    rcases head_blocks n t with hc | hc
    · rw [hc] at he
      obtain rfl : Event.pollReboot false = e := by simpa using he
      exact jobStepOk_of_ne _ _ (by simp) (by simp)
    · rw [hc] at he
      exact jobStepOk_of_ne _ _ (by simp) (hh e (by simpa using he))

/-- The job-loop step discipline holds within a single loop iteration. -/
theorem chain'_cycle (k : Nat) : List.Chain' jobStepOk (cycleEvents k) := by
  refine List.chain'_cons'.mpr ⟨?_, ?_⟩
  · intro e he
    rcases head_blocks k [Event.pollReboot true, Event.jobDisconnect] with hc | hc <;>
        rw [hc] at he
    · obtain rfl : Event.pollReboot false = e := by simpa using he
      exact jobStepOk_of_ne _ _ (by simp) (by simp)
    · obtain rfl : Event.pollReboot true = e := by simpa using he
      exact jobStepOk_of_ne _ _ (by simp) (by simp)
  · have ht : List.Chain' jobStepOk [Event.pollReboot true, Event.jobDisconnect] :=
      List.chain'_cons.mpr
        ⟨⟨fun _ => rfl, fun h => Event.noConfusion h⟩, List.chain'_singleton _⟩
    refine chain'_blocks k _ ht ?_
    intro e he
    obtain rfl : Event.pollReboot true = e := by simpa using he
    decide

/-- Each loop iteration ends with the `disconnect` call. -/
theorem getLast?_cycle (k : Nat) :
    (cycleEvents k).getLast? = some Event.jobDisconnect := by
  have h : cycleEvents k =
      (Event.jobInit ::
        ((List.replicate k [Event.pollReboot false, Event.sleepOne]).flatten ++
          [Event.pollReboot true])) ++ [Event.jobDisconnect] := by
    simp [cycleEvents]
  rw [h, List.getLast?_concat]

/-- A non-empty job-loop trace begins with the `init` call. -/
theorem head?_jobLoop (ks : List Nat) (e : Event)
    (he : (jobLoopTrace ks).head? = some e) : e = Event.jobInit := by
  cases ks with
  | nil => simp [jobLoopTrace] at he
  | cons k ks =>
    have h0 : (jobLoopTrace (k :: ks)).head? = some Event.jobInit := rfl
    rw [h0] at he
    injection he with h
    exact h.symm

/-- The job-loop step discipline holds along the whole job-loop trace. -/
theorem chain'_jobLoop (ks : List Nat) :
    List.Chain' jobStepOk (jobLoopTrace ks) := by
  induction ks with
  | nil => simp [jobLoopTrace]
  | cons k ks ih =>
    have h : jobLoopTrace (k :: ks) = cycleEvents k ++ jobLoopTrace ks := rfl
    rw [h]
    refine List.Chain'.append (chain'_cycle k) ih ?_
    intro x hx y hy
    rw [getLast?_cycle] at hx
    obtain rfl : Event.jobDisconnect = x := by simpa using hx
    obtain rfl : y = Event.jobInit := head?_jobLoop ks y (by simpa using hy)
    decide

/-- A `Chain'` constrains every pair of positionally adjacent elements. -/
theorem chain'_getElem? {α : Type} {R : α → α → Prop} {l : List α}
    (h : List.Chain' R l) (i : Nat) (a b : α)
    (ha : l[i]? = some a) (hb : l[i+1]? = some b) : R a b := by
  obtain ⟨hi0, hae⟩ := List.getElem?_eq_some.mp ha
  obtain ⟨hi1, hbe⟩ := List.getElem?_eq_some.mp hb
  have h' := List.chain'_iff_get.mp h i (by omega)
  simpa [List.get_eq_getElem, hae, hbe] using h'

/-- C8, confirmed.  Along the job-loop trace (any finite number of iterations,
with any per-iteration poll schedule): a `disconnect` occurs only immediately
after an `isRebooting` poll that returned `true`; the event following any
`disconnect` is again `init` (the loop reconnects after every reboot); the
trace begins with `init`; and every `isRebooting` poll is preceded by the
`init` at position 0. -/
theorem claim8_theorem (ks : List Nat) :
    (∀ i a, (jobLoopTrace ks)[i]? = some a →
      (jobLoopTrace ks)[i+1]? = some Event.jobDisconnect →
      a = Event.pollReboot true) ∧
    (∀ i e, (jobLoopTrace ks)[i]? = some Event.jobDisconnect →
      (jobLoopTrace ks)[i+1]? = some e → e = Event.jobInit) ∧
    (∀ e, (jobLoopTrace ks).head? = some e → e = Event.jobInit) ∧
    (∀ i b, (jobLoopTrace ks)[i]? = some (Event.pollReboot b) →
      0 < i ∧ (jobLoopTrace ks)[0]? = some Event.jobInit) := by
  refine ⟨?_, ?_, fun e he => head?_jobLoop ks e he, ?_⟩
  · intro i a ha hd
    exact (chain'_getElem? (chain'_jobLoop ks) i a _ ha hd).1 rfl
  · intro i e hd he
    exact (chain'_getElem? (chain'_jobLoop ks) i _ e hd he).2 rfl
  · intro i b hi
    have hne : jobLoopTrace ks ≠ [] := by
      intro h
      rw [h] at hi
      simp at hi
    obtain ⟨a, t, hat⟩ := List.exists_cons_of_ne_nil hne
    have ha : a = Event.jobInit := head?_jobLoop ks a (by rw [hat]; rfl)
    have h0 : (jobLoopTrace ks)[0]? = some Event.jobInit := by
      rw [hat, ha]
      simp
    refine ⟨?_, h0⟩
    rcases Nat.eq_zero_or_pos i with rfl | hpos
    · rw [h0] at hi
      simp at hi
    · exact hpos

/-- C8: witness. -/
theorem claim8_witness :
    Event.pollReboot true = Event.pollReboot true ∧
    Event.jobInit = Event.jobInit ∧
    (0 < 1 ∧ (jobLoopTrace [1, 0])[0]? = some Event.jobInit) :=
  ⟨(claim8_theorem [1, 0]).1 3 (Event.pollReboot true) rfl rfl,
   (claim8_theorem [1, 0]).2.1 4 Event.jobInit rfl rfl,
   (claim8_theorem [1, 0]).2.2.2 1 false rfl⟩

end IotProvisioning
